/-
Verification of the Users/Tasks REST service (Express + Mongoose, src/routes/users.js).

The two routers in src/routes/users.js are shallowly embedded as pure state
transformers over a `Store` holding the two collections. Mongoose operations
are modelled as list operations:
  * `findById`            -> first element with matching `id`
  * `findByIdAndUpdate`   -> map over the collection, updating matching ids
                             (a no-op when the id resolves to nothing)
  * `findByIdAndDelete`   -> remove matching elements, returning the found one
  * `updateMany`          -> map over the collection, updating matching docs
  * `$addToSet` / `$pull` -> set-insert / remove-all on a string list
  * `create` / `save`     -> append with a store-assigned fresh id / write back

JavaScript truthiness on optional string fields (`x || d`, `if (x)`) is
modelled on `Option String`: `none` (undefined) and `some ""` are falsy.
-/
import Mathlib

namespace Mp3

/-- A User document (src/models/user, as used by the routes). -/
structure User where
  id : String
  name : String
  email : String
  pendingTasks : List String
deriving Repr, DecidableEq

/-- A Task document (src/models/task, as used by the routes). -/
structure Task where
  id : String
  name : String
  description : String
  deadline : Int
  completed : Bool
  assignedUser : String
  assignedUserName : String
deriving Repr, DecidableEq

/-- The document store: the two collections. -/
structure Store where
  users : List User
  tasks : List Task
deriving Repr, DecidableEq

/-- Outcome of one route handler: the store afterwards, the HTTP status, and
the document sent back in the response envelope (when the route returns one). -/
structure RouteResult (α : Type) where
  store : Store
  status : Nat
  body : Option α
deriving Repr, DecidableEq

/-- JS `x || d` on an optional string: `undefined` and `""` are falsy. -/
def orElseStr (o : Option String) (d : String) : String :=
  match o with
  | none => d
  | some s => if s = "" then d else s

/-- JS truthiness of an optional string (`if (x)`). -/
def truthyStr (o : Option String) : Bool :=
  match o with
  | none => false
  | some s => s ≠ ""

/-- `User.findById` / `User.findOne({_id: i})`. -/
def findUser (s : Store) (i : String) : Option User :=
  s.users.find? (fun u => u.id == i)

/-- `Task.findById`. -/
def findTask (s : Store) (i : String) : Option Task :=
  s.tasks.find? (fun t => t.id == i)

/-- `User.findByIdAndUpdate(i, ...)`: update matching documents, no-op when
the id resolves to nothing. -/
def updateUserById (s : Store) (i : String) (f : User → User) : Store :=
  { s with users := s.users.map (fun u => if u.id == i then f u else u) }

/-- `Task.findByIdAndUpdate(i, ...)`. -/
def updateTaskById (s : Store) (i : String) (f : Task → Task) : Store :=
  { s with tasks := s.tasks.map (fun t => if t.id == i then f t else t) }

/-- `task.save()`: write the (possibly modified) document back over the stored
document with the same id. -/
def saveTask (s : Store) (t : Task) : Store :=
  { s with tasks := s.tasks.map (fun x => if x.id == t.id then t else x) }

/-- `user.save()`. -/
def saveUser (s : Store) (u : User) : Store :=
  { s with users := s.users.map (fun x => if x.id == u.id then u else x) }

/-- Mongo `$addToSet`: append unless already present. -/
def addToSet (l : List String) (x : String) : List String :=
  if x ∈ l then l else l ++ [x]

/-- Mongo `$pull`: remove every occurrence. -/
def pull (l : List String) (x : String) : List String :=
  l.filter (fun y => y ≠ x)

/-- `User.findByIdAndUpdate(uid, { $addToSet: { pendingTasks: tid } })`. -/
def addTaskToUser (s : Store) (uid tid : String) : Store :=
  updateUserById s uid
    (fun v => { v with pendingTasks := addToSet v.pendingTasks tid })

/-- `User.findByIdAndUpdate(uid, { $pull: { pendingTasks: tid } })`. -/
def pullTaskFromUser (s : Store) (uid tid : String) : Store :=
  updateUserById s uid
    (fun v => { v with pendingTasks := pull v.pendingTasks tid })

/-! ### POST /api/tasks -/

/-- Request body of POST /api/tasks. `deadline` is the parsed timestamp
(`none` models an absent or unparseable date); `completed` carries the `!!`
coercion already applied. -/
structure TaskBody where
  name : Option String := none
  description : Option String := none
  deadline : Option Int := none
  completed : Bool := false
  assignedUser : Option String := none
  assignedUserName : Option String := none
deriving Repr, DecidableEq

/-- POST /api/tasks handler. `freshId` is the store-assigned id of the new
document, `now` the current time used as the deadline fallback. In the source
`validDeadline` is always a truthy Date object, so the 400 branch fires
exactly when `name` is falsy. -/
def postTask (s : Store) (body : TaskBody) (freshId : String) (now : Int) :
    RouteResult Task :=
  if truthyStr body.name = false then
    { store := s, status := 400, body := none }
  else
    let au := orElseStr body.assignedUser ""
    let t : Task :=
      { id := freshId
        name := orElseStr body.name ""
        description := orElseStr body.description ""
        deadline := body.deadline.getD now
        completed := body.completed
        assignedUser := au
        assignedUserName :=
          orElseStr body.assignedUserName
            (if au = "" then "unassigned" else "unknown") }
    let s1 : Store := { s with tasks := s.tasks ++ [t] }
    if au = "" then
      { store := s1, status := 201, body := some t }
    else
      match findUser s1 au with
      | some u =>
        let t2 := { t with assignedUserName := u.name }
        let s2 := saveTask s1 t2
        let s3 := addTaskToUser s2 u.id t2.id
        { store := s3, status := 201, body := some t2 }
      | none =>
        { store := s1, status := 201, body := some t }

/-! ### POST /api/users -/

/-- Request body of POST /api/users. -/
structure UserBody where
  name : Option String := none
  email : Option String := none
  pendingTasks : Option (List String) := none
deriving Repr, DecidableEq

/-- POST /api/users handler: validate required fields, reject duplicate
email (`User.findOne({ email })`), then create. `freshId` is the
store-assigned id. -/
def postUser (s : Store) (body : UserBody) (freshId : String) :
    RouteResult User :=
  if truthyStr body.name = false ∨ truthyStr body.email = false then
    { store := s, status := 400, body := none }
  else
    match s.users.find? (fun u => some u.email == body.email) with
    | some _ => { store := s, status := 400, body := none }
    | none =>
      let u : User :=
        { id := freshId
          name := orElseStr body.name ""
          email := orElseStr body.email ""
          pendingTasks := body.pendingTasks.getD [] }
      { store := { s with users := s.users ++ [u] }, status := 201,
        body := some u }

/-! ### PUT /api/users/:id -/

/-- Fields present in a PUT /api/users/:id body (`updates` in the source:
only keys present in the request are applied). -/
structure UserUpdates where
  name : Option String := none
  email : Option String := none
  pendingTasks : Option (List String) := none
deriving Repr, DecidableEq

/-- One step of the first sync loop: tasks dropped from `pendingTasks` are
cleared back to the unassigned state (`Task.findByIdAndUpdate`). -/
def clearDroppedTask (newTasks : List String) (st : Store) (tid : String) :
    Store :=
  if tid ∈ newTasks then st
  else
    updateTaskById st tid
      (fun t => { t with assignedUser := "", assignedUserName := "unassigned" })

/-- One step of the second sync loop: every task named in the new
`pendingTasks` list is re-pointed at this user (old `name`, fetched doc). -/
def claimTask (user : User) (st : Store) (tid : String) : Store :=
  match findTask st tid with
  | some t =>
    saveTask st
      { t with assignedUser := user.id, assignedUserName := user.name }
  | none => st

/-- PUT /api/users/:id handler. When the body carries `pendingTasks`, the two
sync loops run against the pre-update user document, then the updates are
applied to the user and saved. -/
def putUser (s : Store) (i : String) (upd : UserUpdates) : RouteResult User :=
  match findUser s i with
  | none => { store := s, status := 404, body := none }
  | some user =>
    let s1 : Store :=
      match upd.pendingTasks with
      | none => s
      | some newTasks =>
        let sA := user.pendingTasks.foldl (clearDroppedTask newTasks) s
        newTasks.foldl (claimTask user) sA
    let user2 : User :=
      { user with
        name := upd.name.getD user.name
        email := upd.email.getD user.email
        pendingTasks := upd.pendingTasks.getD user.pendingTasks }
    { store := saveUser s1 user2, status := 200, body := some user2 }

/-! ### DELETE /api/users/:id -/

/-- DELETE /api/users/:id handler: `findByIdAndDelete`, then
`Task.updateMany({ assignedUser: id }, { assignedUser: "",
assignedUserName: "unassigned" })` — a reverse query over the Task
collection, `pendingTasks` is never read. -/
def deleteUser (s : Store) (i : String) : RouteResult User :=
  match findUser s i with
  | none => { store := s, status := 404, body := none }
  | some u =>
    let s1 : Store := { s with users := s.users.filter (fun v => v.id ≠ i) }
    let s2 : Store :=
      { s1 with
        tasks := s1.tasks.map (fun t =>
          if t.assignedUser = i then
            { t with assignedUser := "", assignedUserName := "unassigned" }
          else t) }
    { store := s2, status := 200, body := some u }

/-! ### PUT /api/tasks/:id -/

/-- Fields present in a PUT /api/tasks/:id body. -/
structure TaskUpdates where
  name : Option String := none
  description : Option String := none
  deadline : Option Int := none
  completed : Option Bool := none
  assignedUser : Option String := none
  assignedUserName : Option String := none
deriving Repr, DecidableEq

/-- `Object.assign(task, updates)` (with the deadline re-parse on top). -/
def applyTaskUpdates (t : Task) (u : TaskUpdates) : Task :=
  { t with
    name := u.name.getD t.name
    description := u.description.getD t.description
    deadline := u.deadline.getD t.deadline
    completed := u.completed.getD t.completed
    assignedUser := u.assignedUser.getD t.assignedUser
    assignedUserName := u.assignedUserName.getD t.assignedUserName }

/-- PUT /api/tasks/:id handler: apply the partial update and save, then when
the assignment changed, `$pull` the task from the previous user (if any) and,
when the new id resolves, rewrite `assignedUserName`, save again, and
`$addToSet` into the new user's `pendingTasks`. -/
def putTask (s : Store) (i : String) (upd : TaskUpdates) : RouteResult Task :=
  match findTask s i with
  | none => { store := s, status := 404, body := none }
  | some task =>
    let prevUser := task.assignedUser
    let newUser := upd.assignedUser.getD prevUser
    let t1 := applyTaskUpdates task upd
    let s1 := saveTask s t1
    if prevUser = newUser then
      { store := s1, status := 200, body := some t1 }
    else
      let s2 :=
        if prevUser = "" then s1
        else pullTaskFromUser s1 prevUser t1.id
      if newUser = "" then
        { store := s2, status := 200, body := some t1 }
      else
        match findUser s2 newUser with
        | some u =>
          let t2 := { t1 with assignedUserName := u.name }
          let s3 := saveTask s2 t2
          let s4 := addTaskToUser s3 newUser t2.id
          { store := s4, status := 200, body := some t2 }
        | none =>
          { store := s2, status := 200, body := some t1 }

/-! ### DELETE /api/tasks/:id -/

/-- DELETE /api/tasks/:id handler: `findByIdAndDelete`, then when the task
was assigned, `$pull` its id from that user's `pendingTasks`
(`findByIdAndUpdate` — a user that no longer exists is a silent no-op). -/
def deleteTask (s : Store) (i : String) : RouteResult Task :=
  match findTask s i with
  | none => { store := s, status := 404, body := none }
  | some t =>
    let s1 : Store := { s with tasks := s.tasks.filter (fun x => x.id ≠ i) }
    let s2 : Store :=
      if t.assignedUser = "" then s1
      else pullTaskFromUser s1 t.assignedUser t.id
    { store := s2, status := 200, body := some t }

/-! ### List-route pagination (GET /api/users, GET /api/tasks) -/

/-- skip/limit as handed to the store by a list route; `limitN = none` means
no `.limit()` call is issued (unbounded result). -/
structure ListQueryPlan where
  skipN : Int
  limitN : Option Int
deriving Repr, DecidableEq

/-- GET /api/users pagination: `limit ? Math.max(0, parseInt(limit)) : 0`,
and `.limit()` only applied when positive — absent limit means unbounded.
`limit = none` models an absent (or empty, hence falsy) parameter. -/
def getUsersQueryPlan (skip limit : Option Int) : ListQueryPlan :=
  let limitNum : Int :=
    match limit with
    | none => 0
    | some v => max 0 v
  { skipN := max 0 (skip.getD 0)
    limitN := if limitNum > 0 then some limitNum else none }

/-- GET /api/tasks pagination:
`Math.min(1000, Math.max(0, parseInt(limit || '100')))`, always passed to
`.limit()`. -/
def getTasksQueryPlan (skip limit : Option Int) : ListQueryPlan :=
  { skipN := max 0 (skip.getD 0)
    limitN := some (min 1000 (max 0 (limit.getD 100))) }

/-! ### Generic list lemmas about the store operations -/

theorem find?_update_cond {α : Type} (idOf : α → String) (f : α → α)
    (hf : ∀ a, idOf (f a) = idOf a) (i j : String) :
    ∀ l : List α,
      (l.map (fun a => if idOf a == i then f a else a)).find?
          (fun a => idOf a == j) =
        if i = j then (l.find? (fun a => idOf a == j)).map f
        else l.find? (fun a => idOf a == j)
  | [] => by by_cases h : i = j <;> simp [h]
  | a :: l => by
    have ih := find?_update_cond idOf f hf i j l
    by_cases hi : idOf a = i <;> by_cases hj : idOf a = j <;>
      by_cases hij : i = j <;>
      simp_all [List.find?_cons, hf]

theorem find?_save {α : Type} (idOf : α → String) (t : α) (j : String) :
    ∀ l : List α,
      (l.map (fun a => if idOf a == idOf t then t else a)).find?
          (fun a => idOf a == j) =
        if idOf t = j then (l.find? (fun a => idOf a == j)).map (fun _ => t)
        else l.find? (fun a => idOf a == j)
  | [] => by by_cases h : idOf t = j <;> simp [h]
  | a :: l => by
    have ih := find?_save idOf t j l
    by_cases hi : idOf a = idOf t <;> by_cases hj : idOf a = j <;>
      by_cases htj : idOf t = j <;>
      simp_all [List.find?_cons]

/-- After an `updateUserById` that keeps ids fixed, `findUser` sees the update
exactly on the targeted id. -/
theorem findUser_updateUserById (s : Store) (i j : String) (f : User → User)
    (hf : ∀ u, (f u).id = u.id) :
    findUser (updateUserById s i f) j =
      if i = j then (findUser s j).map f else findUser s j :=
  find?_update_cond User.id f hf i j s.users

theorem findTask_updateTaskById (s : Store) (i j : String) (f : Task → Task)
    (hf : ∀ t, (f t).id = t.id) :
    findTask (updateTaskById s i f) j =
      if i = j then (findTask s j).map f else findTask s j :=
  find?_update_cond Task.id f hf i j s.tasks

theorem findUser_addTaskToUser (s : Store) (uid tid j : String) :
    findUser (addTaskToUser s uid tid) j =
      if uid = j then
        (findUser s j).map
          (fun v => { v with pendingTasks := addToSet v.pendingTasks tid })
      else findUser s j :=
  findUser_updateUserById s uid j _ (fun _ => rfl)

theorem findUser_pullTaskFromUser (s : Store) (uid tid j : String) :
    findUser (pullTaskFromUser s uid tid) j =
      if uid = j then
        (findUser s j).map
          (fun v => { v with pendingTasks := pull v.pendingTasks tid })
      else findUser s j :=
  findUser_updateUserById s uid j _ (fun _ => rfl)

theorem findTask_addTaskToUser (s : Store) (uid tid j : String) :
    findTask (addTaskToUser s uid tid) j = findTask s j := rfl

theorem findTask_pullTaskFromUser (s : Store) (uid tid j : String) :
    findTask (pullTaskFromUser s uid tid) j = findTask s j := rfl

theorem findTask_saveTask (s : Store) (t : Task) (j : String) :
    findTask (saveTask s t) j =
      if t.id = j then (findTask s j).map (fun _ => t) else findTask s j :=
  find?_save Task.id t j s.tasks

theorem findUser_saveTask (s : Store) (t : Task) (j : String) :
    findUser (saveTask s t) j = findUser s j := rfl

theorem findTask_updateUserById (s : Store) (i j : String) (f : User → User) :
    findTask (updateUserById s i f) j = findTask s j := rfl

theorem findUser_updateTaskById (s : Store) (i j : String) (f : Task → Task) :
    findUser (updateTaskById s i f) j = findUser s j := rfl

theorem findUser_mem (s : Store) (i : String) (u : User)
    (h : findUser s i = some u) : u ∈ s.users ∧ u.id = i := by
  refine ⟨List.mem_of_find?_eq_some h, ?_⟩
  have := List.find?_some h
  simpa using this

theorem findTask_mem (s : Store) (i : String) (t : Task)
    (h : findTask s i = some t) : t ∈ s.tasks ∧ t.id = i := by
  refine ⟨List.mem_of_find?_eq_some h, ?_⟩
  have := List.find?_some h
  simpa using this

theorem mem_pull_iff (l : List String) (x y : String) :
    y ∈ pull l x ↔ y ∈ l ∧ y ≠ x := by
  simp [pull]

theorem not_mem_pull (l : List String) (x : String) : x ∉ pull l x := by
  simp [mem_pull_iff]

theorem mem_addToSet (l : List String) (x : String) : x ∈ addToSet l x := by
  by_cases h : x ∈ l <;> simp [addToSet, h]

theorem addToSet_of_mem (l : List String) (x : String) (h : x ∈ l) :
    addToSet l x = l := by
  simp [addToSet, h]

theorem findUser_withTasks (s : Store) (ts : List Task) (i : String) :
    findUser { s with tasks := ts } i = findUser s i := rfl

theorem orElseStr_of_not_truthy (o : Option String) (d : String)
    (h : truthyStr o = false) : orElseStr o d = d := by
  cases o with
  | none => rfl
  | some s => simp_all [truthyStr, orElseStr]

theorem findTask_append_isSome (s : Store) (t : Task) (i : String)
    (h : t.id = i) :
    (findTask { s with tasks := s.tasks ++ [t] } i).isSome := by
  rw [findTask, List.find?_isSome]
  exact ⟨t, by simp, by simp [h]⟩

/-! ### Claim C1 -/

/-- Claim C1: a Task created through POST /api/tasks whose `assignedUser`
resolves to an existing User ends up with `assignedUserName` equal to that
User's `name` (in the response and in the store), and the fresh Task id is a
member of that User's `pendingTasks`, inserted with set semantics (the list
is untouched when the id is already present). -/
theorem C1_postTask_valid_assignment_sync
    (s : Store) (body : TaskBody) (freshId : String) (now : Int)
    (uid : String) (u : User)
    (hname : truthyStr body.name = true)
    (hau : orElseStr body.assignedUser "" = uid)
    (hne : uid ≠ "")
    (hfind : findUser s uid = some u) :
    (postTask s body freshId now).status = 201 ∧
    (∃ t, (postTask s body freshId now).body = some t ∧
          t.id = freshId ∧ t.assignedUser = uid ∧
          t.assignedUserName = u.name) ∧
    (∃ t, findTask (postTask s body freshId now).store freshId = some t ∧
          t.assignedUserName = u.name) ∧
    (∃ u2, findUser (postTask s body freshId now).store uid = some u2 ∧
           freshId ∈ u2.pendingTasks ∧
           (freshId ∈ u.pendingTasks → u2.pendingTasks = u.pendingTasks)) := by
  obtain ⟨hmem, huid⟩ := findUser_mem s uid u hfind
  simp only [postTask, hname, hau, findUser_withTasks, hfind,
    Bool.true_eq_false, if_false, if_neg hne]
  refine ⟨trivial, ⟨_, rfl, rfl, rfl, rfl⟩, ?_, ?_⟩
  · rw [findTask_addTaskToUser, findTask_saveTask, if_pos rfl]
    obtain ⟨t0, hft⟩ := Option.isSome_iff_exists.mp (findTask_append_isSome s
      { id := freshId, name := orElseStr body.name "",
        description := orElseStr body.description "",
        deadline := body.deadline.getD now, completed := body.completed,
        assignedUser := uid,
        assignedUserName := orElseStr body.assignedUserName "unknown" }
      freshId rfl)
    rw [hft]
    exact ⟨_, rfl, rfl⟩
  · rw [huid, findUser_addTaskToUser, if_pos rfl, findUser_saveTask,
      findUser_withTasks, hfind]
    refine ⟨_, rfl, mem_addToSet _ _, fun h => ?_⟩
    simp [addToSet_of_mem _ _ h]

/-- Witness for C1: Ann (`u1`, no pending tasks) receives the fresh task
`t9`, and the stored task carries her name. -/
theorem C1_postTask_valid_assignment_sync_witness :
    (postTask
        { users := [{ id := "u1", name := "Ann", email := "a@x.com",
                      pendingTasks := [] }], tasks := [] }
        { name := some "Fix bug", assignedUser := some "u1" } "t9" 5).status
      = 201 ∧
    (∃ t, (postTask
        { users := [{ id := "u1", name := "Ann", email := "a@x.com",
                      pendingTasks := [] }], tasks := [] }
        { name := some "Fix bug", assignedUser := some "u1" } "t9" 5).body
        = some t ∧ t.id = "t9" ∧ t.assignedUser = "u1" ∧
        t.assignedUserName = "Ann") ∧
    (∃ t, findTask (postTask
        { users := [{ id := "u1", name := "Ann", email := "a@x.com",
                      pendingTasks := [] }], tasks := [] }
        { name := some "Fix bug", assignedUser := some "u1" } "t9" 5).store
        "t9" = some t ∧ t.assignedUserName = "Ann") ∧
    (∃ u2, findUser (postTask
        { users := [{ id := "u1", name := "Ann", email := "a@x.com",
                      pendingTasks := [] }], tasks := [] }
        { name := some "Fix bug", assignedUser := some "u1" } "t9" 5).store
        "u1" = some u2 ∧ "t9" ∈ u2.pendingTasks ∧
        ("t9" ∈ ([] : List String) →
          u2.pendingTasks = ([] : List String))) :=
  C1_postTask_valid_assignment_sync _ _ "t9" 5 "u1"
    { id := "u1", name := "Ann", email := "a@x.com", pendingTasks := [] }
    (by decide) (by decide) (by decide) (by decide)

theorem findTask_append_eq (s : Store) (t : Task) (i : String)
    (h : t.id = i) (hnone : findTask s i = none) :
    findTask { s with tasks := s.tasks ++ [t] } i = some t := by
  rw [findTask] at hnone ⊢
  rw [List.find?_append, hnone]
  simp [h]

/-! ### Claim C6 -/

/-- Claim C6 as stated is false: POST /api/tasks takes a caller-supplied
`assignedUserName` verbatim (`assignedUserName || ...`), so a request with
empty `assignedUser` and `assignedUserName: "Bob"` creates a Task whose
`assignedUserName` is `"Bob"`, not `"unassigned"`. -/
theorem C6_counterexample :
    (postTask { users := [], tasks := [] }
        { name := some "T", assignedUserName := some "Bob" } "t9" 5).body.map
        Task.assignedUser = some "" ∧
    (postTask { users := [], tasks := [] }
        { name := some "T", assignedUserName := some "Bob" } "t9" 5).body.map
        Task.assignedUserName = some "Bob" ∧
    ("Bob" : String) ≠ "unassigned" := by
  exact ⟨rfl, rfl, by decide⟩

/-- Claim C6 (amended): when the request supplies no (or an empty, hence
falsy) `assignedUserName`, a Task created via POST /api/tasks gets
`assignedUserName = "unassigned"` when `assignedUser` is empty, and
`"unknown"` when a non-empty `assignedUser` id does not resolve to a User
(both in the response and, for a fresh id, in the store). -/
theorem C6_postTask_default_names
    (s : Store) (body : TaskBody) (freshId : String) (now : Int)
    (hname : truthyStr body.name = true)
    (hnoaun : truthyStr body.assignedUserName = false) :
    (orElseStr body.assignedUser "" = "" →
      (postTask s body freshId now).body.map Task.assignedUserName =
        some "unassigned") ∧
    (∀ uid, orElseStr body.assignedUser "" = uid → uid ≠ "" →
      findUser s uid = none →
      (postTask s body freshId now).body.map Task.assignedUserName =
        some "unknown" ∧
      (findTask s freshId = none →
        ∃ t, findTask (postTask s body freshId now).store freshId = some t ∧
             t.assignedUserName = "unknown")) := by
  constructor
  · intro hau
    simp only [postTask, hname, hau, Bool.true_eq_false, if_false, ite_true,
      eq_self_iff_true, orElseStr_of_not_truthy _ _ hnoaun]
    rfl
  · intro uid hau hne hnouser
    simp only [postTask, hname, hau, Bool.true_eq_false, if_false, if_neg hne,
      findUser_withTasks, hnouser, orElseStr_of_not_truthy _ _ hnoaun]
    refine ⟨rfl, fun hfresh => ?_⟩
    rw [findTask_append_eq _ _ _ rfl hfresh]
    exact ⟨_, rfl, rfl⟩

/-- Witness for the amended C6, at both an empty and a dangling
`assignedUser`. -/
theorem C6_postTask_default_names_witness :
    (postTask { users := [], tasks := [] } { name := some "T" } "t9" 5).body.map
      Task.assignedUserName = some "unassigned" ∧
    (postTask { users := [], tasks := [] }
        { name := some "T", assignedUser := some "zz" } "t9" 5).body.map
      Task.assignedUserName = some "unknown" :=
  ⟨(C6_postTask_default_names { users := [], tasks := [] } { name := some "T" }
      "t9" 5 (by decide) (by decide)).1 rfl,
   ((C6_postTask_default_names { users := [], tasks := [] }
      { name := some "T", assignedUser := some "zz" } "t9" 5 (by decide)
      (by decide)).2 "zz" rfl (by decide) rfl).1⟩

/-! ### Claim C7 -/

/-- Claim C7: POST /api/users fails with 400 and leaves the Users collection
unchanged both when `name` or `email` is missing (falsy) and when the email
duplicates an existing User's email. -/
theorem C7_postUser_validation (s : Store) (body : UserBody)
    (freshId : String) :
    ((truthyStr body.name = false ∨ truthyStr body.email = false) →
      (postUser s body freshId).status = 400 ∧
      (postUser s body freshId).store = s) ∧
    (∀ e u0, body.email = some e → u0 ∈ s.users → u0.email = e →
      (postUser s body freshId).status = 400 ∧
      (postUser s body freshId).store = s) := by
  constructor
  · intro h
    simp only [postUser, if_pos h]
    exact ⟨trivial, trivial⟩
  · intro e u0 he hmem hemail
    by_cases h : truthyStr body.name = false ∨ truthyStr body.email = false
    · simp only [postUser, if_pos h]
      exact ⟨trivial, trivial⟩
    · simp only [postUser, if_neg h]
      have hfound : (s.users.find? (fun u => some u.email == body.email)).isSome := by
        rw [List.find?_isSome]
        exact ⟨u0, hmem, by simp [he, hemail]⟩
      obtain ⟨u1, hu1⟩ := Option.isSome_iff_exists.mp hfound
      rw [hu1]
      exact ⟨rfl, rfl⟩

/-- Witness for C7: a duplicate email and a missing name are both rejected
with the store untouched. -/
theorem C7_postUser_validation_witness :
    ((postUser
        { users := [{ id := "u1", name := "Ann", email := "a@x.com",
                      pendingTasks := [] }], tasks := [] }
        { name := some "Bob", email := some "a@x.com" } "u2").status = 400 ∧
     (postUser
        { users := [{ id := "u1", name := "Ann", email := "a@x.com",
                      pendingTasks := [] }], tasks := [] }
        { name := some "Bob", email := some "a@x.com" } "u2").store =
       { users := [{ id := "u1", name := "Ann", email := "a@x.com",
                     pendingTasks := [] }], tasks := [] }) ∧
    ((postUser { users := [], tasks := [] }
        { email := some "b@x.com" } "u2").status = 400 ∧
     (postUser { users := [], tasks := [] }
        { email := some "b@x.com" } "u2").store =
       { users := [], tasks := [] }) :=
  ⟨(C7_postUser_validation
      { users := [{ id := "u1", name := "Ann", email := "a@x.com",
                    pendingTasks := [] }], tasks := [] }
      { name := some "Bob", email := some "a@x.com" } "u2").2 "a@x.com"
      { id := "u1", name := "Ann", email := "a@x.com", pendingTasks := [] }
      rfl (by decide) rfl,
   (C7_postUser_validation { users := [], tasks := [] }
      { email := some "b@x.com" } "u2").1 (Or.inl rfl)⟩

/-! ### Claim C9 -/

/-- Claim C9: the GET /api/tasks pagination clamps the limit to at most 1000
and defaults it to 100 when absent; the GET /api/users pagination applies no
clamp, and an absent limit issues no `.limit()` at all (unbounded). -/
theorem C9_pagination_limits :
    (∀ skip limit n, (getTasksQueryPlan skip limit).limitN = some n →
      n ≤ 1000) ∧
    (∀ skip, (getTasksQueryPlan skip none).limitN = some 100) ∧
    (∀ skip, (getUsersQueryPlan skip none).limitN = none) ∧
    (∀ skip limit v, limit = some v → 0 < v →
      (getUsersQueryPlan skip limit).limitN = some v) := by
  refine ⟨?_, ?_, ?_, ?_⟩
  · intro skip limit n h
    simp only [getTasksQueryPlan] at h
    injection h with h
    subst h
    exact min_le_left _ _
  · intro skip
    rfl
  · intro skip
    rfl
  · intro skip limit v hv hpos
    subst hv
    show (if max 0 v > 0 then some (max 0 v) else none) = some v
    rw [max_eq_right hpos.le, if_pos hpos]

/-- Witness for C9: the default task limit is 100, a task limit of 5000 is
clamped to a value at most 1000, an absent user limit is unbounded, and a
user limit of 5000 is passed through unclamped. -/
theorem C9_pagination_limits_witness :
    (getTasksQueryPlan none none).limitN = some 100 ∧
    ((1000 : Int) ≤ 1000) ∧
    (getUsersQueryPlan none none).limitN = none ∧
    (getUsersQueryPlan none (some 5000)).limitN = some 5000 :=
  ⟨C9_pagination_limits.2.1 none,
   C9_pagination_limits.1 none (some 5000) 1000 (by decide),
   C9_pagination_limits.2.2.1 none,
   C9_pagination_limits.2.2.2 none (some 5000) 5000 rfl (by decide)⟩

/-! ### Claim C4 -/

/-- Claim C4: DELETE /api/users/:id deletes the User document and clears
`assignedUser`/`assignedUserName` on every Task that pointed at the deleted
id; the affected Tasks are found by the reverse `updateMany` query on
`assignedUser`, so the outcome on the Task collection is the same for any
contents of the deleted User's `pendingTasks` list. -/
theorem C4_deleteUser_clears_tasks (s : Store) (i : String) (u : User)
    (hfind : findUser s i = some u) :
    (deleteUser s i).status = 200 ∧
    findUser (deleteUser s i).store i = none ∧
    (∀ t, t ∈ s.tasks → t.assignedUser = i →
      { t with assignedUser := "", assignedUserName := "unassigned" } ∈
        (deleteUser s i).store.tasks) ∧
    (∀ t, t ∈ s.tasks → t.assignedUser ≠ i →
      t ∈ (deleteUser s i).store.tasks) ∧
    (∀ l, (deleteUser
        (updateUserById s i (fun v => { v with pendingTasks := l }))
        i).store.tasks = (deleteUser s i).store.tasks) := by
  simp only [deleteUser, hfind]
  refine ⟨trivial, ?_, ?_, ?_, ?_⟩
  · rw [findUser, List.find?_eq_none]
    intro x hx
    rw [List.mem_filter] at hx
    simp only [decide_eq_true_eq] at hx
    simp [hx.2]
  · intro t hmem ht
    have := List.mem_map_of_mem (fun t =>
      if t.assignedUser = i then
        { t with assignedUser := "", assignedUserName := "unassigned" }
      else t) hmem
    simpa [ht] using this
  · intro t hmem ht
    have := List.mem_map_of_mem (fun t =>
      if t.assignedUser = i then
        { t with assignedUser := "", assignedUserName := "unassigned" }
      else t) hmem
    simpa [ht] using this
  · intro l
    rw [findUser_updateUserById s i i
      (fun v => { v with pendingTasks := l }) (fun _ => rfl), if_pos rfl, hfind]
    rfl

/-- Witness for C4: deleting Ann (`u1`, with a stale `pendingTasks`) clears
her task `t1` to the unassigned state. -/
theorem C4_deleteUser_clears_tasks_witness :
    (deleteUser
        { users := [{ id := "u1", name := "Ann", email := "a@x.com",
                      pendingTasks := ["zz"] }],
          tasks := [{ id := "t1", name := "Fix bug", description := "",
                      deadline := 0, completed := false,
                      assignedUser := "u1", assignedUserName := "Ann" }] }
        "u1").status = 200 ∧
    findUser (deleteUser
        { users := [{ id := "u1", name := "Ann", email := "a@x.com",
                      pendingTasks := ["zz"] }],
          tasks := [{ id := "t1", name := "Fix bug", description := "",
                      deadline := 0, completed := false,
                      assignedUser := "u1", assignedUserName := "Ann" }] }
        "u1").store "u1" = none ∧
    ({ id := "t1", name := "Fix bug", description := "", deadline := 0,
       completed := false, assignedUser := "",
       assignedUserName := "unassigned" } : Task) ∈
      (deleteUser
        { users := [{ id := "u1", name := "Ann", email := "a@x.com",
                      pendingTasks := ["zz"] }],
          tasks := [{ id := "t1", name := "Fix bug", description := "",
                      deadline := 0, completed := false,
                      assignedUser := "u1", assignedUserName := "Ann" }] }
        "u1").store.tasks := by
  have h := C4_deleteUser_clears_tasks
    { users := [{ id := "u1", name := "Ann", email := "a@x.com",
                  pendingTasks := ["zz"] }],
      tasks := [{ id := "t1", name := "Fix bug", description := "",
                  deadline := 0, completed := false,
                  assignedUser := "u1", assignedUserName := "Ann" }] }
    "u1"
    { id := "u1", name := "Ann", email := "a@x.com", pendingTasks := ["zz"] }
    (by decide)
  exact ⟨h.1, h.2.1, h.2.2.1
    { id := "t1", name := "Fix bug", description := "", deadline := 0,
      completed := false, assignedUser := "u1", assignedUserName := "Ann" }
    (by decide) (by decide)⟩

/-! ### Claim C5 -/

/-- Claim C5: DELETE /api/tasks/:id on an assigned Task succeeds with 200
and removes the Task id from the owning User's `pendingTasks`; no hypothesis
is made that the User exists or that the id was in its list, so both are
tolerated. -/
theorem C5_deleteTask_pulls_from_user (s : Store) (i : String) (t : Task)
    (hfind : findTask s i = some t)
    (huid : t.assignedUser ≠ "") :
    (deleteTask s i).status = 200 ∧
    findTask (deleteTask s i).store i = none ∧
    (∀ u2, findUser (deleteTask s i).store t.assignedUser = some u2 →
      i ∉ u2.pendingTasks) := by
  obtain ⟨hmem, hid⟩ := findTask_mem s i t hfind
  simp only [deleteTask, hfind, if_neg huid]
  refine ⟨trivial, ?_, ?_⟩
  · rw [findTask_pullTaskFromUser, findTask, List.find?_eq_none]
    intro x hx
    rw [List.mem_filter] at hx
    simp only [decide_eq_true_eq] at hx
    simp [hx.2]
  · intro u2 hu2
    rw [findUser_pullTaskFromUser, if_pos rfl] at hu2
    cases hfu : findUser { s with tasks := s.tasks.filter (fun x => x.id ≠ i) }
        t.assignedUser with
    | none =>
      rw [hfu] at hu2
      exact absurd hu2 (by simp)
    | some u0 =>
      rw [hfu] at hu2
      rw [Option.map_some'] at hu2
      injection hu2 with hu2
      subst hu2
      rw [← hid]
      exact not_mem_pull u0.pendingTasks t.id

/-- Witness for C5: deleting `t1` pulls it from Ann's `pendingTasks`; the
instantiation also evaluates the handler when Ann is missing entirely
(status still 200 via the same theorem, user conjunct vacuous). -/
theorem C5_deleteTask_pulls_from_user_witness :
    ((deleteTask
        { users := [{ id := "u1", name := "Ann", email := "a@x.com",
                      pendingTasks := ["t1"] }],
          tasks := [{ id := "t1", name := "Fix bug", description := "",
                      deadline := 0, completed := false,
                      assignedUser := "u1", assignedUserName := "Ann" }] }
        "t1").status = 200 ∧
     (∀ u2, findUser (deleteTask
        { users := [{ id := "u1", name := "Ann", email := "a@x.com",
                      pendingTasks := ["t1"] }],
          tasks := [{ id := "t1", name := "Fix bug", description := "",
                      deadline := 0, completed := false,
                      assignedUser := "u1", assignedUserName := "Ann" }] }
        "t1").store "u1" = some u2 → "t1" ∉ u2.pendingTasks)) ∧
    (deleteTask
        { users := [],
          tasks := [{ id := "t1", name := "Fix bug", description := "",
                      deadline := 0, completed := false,
                      assignedUser := "u1", assignedUserName := "Ann" }] }
        "t1").status = 200 := by
  have h1 := C5_deleteTask_pulls_from_user
    { users := [{ id := "u1", name := "Ann", email := "a@x.com",
                  pendingTasks := ["t1"] }],
      tasks := [{ id := "t1", name := "Fix bug", description := "",
                  deadline := 0, completed := false,
                  assignedUser := "u1", assignedUserName := "Ann" }] }
    "t1"
    { id := "t1", name := "Fix bug", description := "", deadline := 0,
      completed := false, assignedUser := "u1", assignedUserName := "Ann" }
    (by decide) (by decide)
  have h2 := C5_deleteTask_pulls_from_user
    { users := [],
      tasks := [{ id := "t1", name := "Fix bug", description := "",
                  deadline := 0, completed := false,
                  assignedUser := "u1", assignedUserName := "Ann" }] }
    "t1"
    { id := "t1", name := "Fix bug", description := "", deadline := 0,
      completed := false, assignedUser := "u1", assignedUserName := "Ann" }
    (by decide) (by decide)
  exact ⟨⟨h1.1, h1.2.2⟩, h2.1⟩

/-! ### Claim C2 -/

/-- Claim C2 as stated is false: PUT /api/tasks/:id with `assignedUser: ""`
takes the `prevUser != newUser` branch, pulls the Task from Ann's
`pendingTasks`, but the `newUser` branch (the only place that rewrites
`assignedUserName`) is skipped because `""` is falsy — the Task keeps
`assignedUserName = "Ann"` instead of becoming `"unassigned"`. -/
theorem C2_counterexample :
    ((putTask
        { users := [{ id := "u1", name := "Ann", email := "a@x.com",
                      pendingTasks := ["t1"] }],
          tasks := [{ id := "t1", name := "Fix bug", description := "",
                      deadline := 0, completed := false,
                      assignedUser := "u1", assignedUserName := "Ann" }] }
        "t1" { assignedUser := some "" }).body.map Task.assignedUserName)
      = some "Ann" ∧
    ((findTask (putTask
        { users := [{ id := "u1", name := "Ann", email := "a@x.com",
                      pendingTasks := ["t1"] }],
          tasks := [{ id := "t1", name := "Fix bug", description := "",
                      deadline := 0, completed := false,
                      assignedUser := "u1", assignedUserName := "Ann" }] }
        "t1" { assignedUser := some "" }).store "t1").map
        Task.assignedUserName) = some "Ann" ∧
    ("Ann" : String) ≠ "unassigned" := by
  exact ⟨rfl, rfl, by decide⟩

/-- Claim C2 (amended): PUT /api/tasks/:id changing `assignedUser` from a
non-empty id to `""` sets the Task's `assignedUser` to `""` while
`assignedUserName` keeps its previous value (it is NOT rewritten to
`"unassigned"`), and removes the Task id from the previous User's
`pendingTasks` (so a singleton list becomes empty). -/
theorem C2_putTask_unassign (s : Store) (i : String) (upd : TaskUpdates)
    (task : Task) (a : String) (uA : User)
    (hfind : findTask s i = some task)
    (ha : task.assignedUser = a) (hane : a ≠ "")
    (hb : upd.assignedUser = some "")
    (hnoname : upd.assignedUserName = none)
    (hfa : findUser s a = some uA) :
    (putTask s i upd).status = 200 ∧
    (∃ t2, (putTask s i upd).body = some t2 ∧ t2.assignedUser = "" ∧
           t2.assignedUserName = task.assignedUserName) ∧
    (∃ t2, findTask (putTask s i upd).store i = some t2 ∧
           t2.assignedUser = "" ∧
           t2.assignedUserName = task.assignedUserName) ∧
    (∃ uA2, findUser (putTask s i upd).store a = some uA2 ∧
            uA2.pendingTasks = pull uA.pendingTasks i ∧
            i ∉ uA2.pendingTasks) := by
  obtain ⟨hmemt, hidt⟩ := findTask_mem s i task hfind
  have hane2 : a ≠ ("" : String) := hane
  simp only [putTask, hfind, hb, hnoname, Option.getD_some, Option.getD_none,
    applyTaskUpdates, ha, hidt]
  simp only [if_neg hane2, ite_true, eq_self_iff_true]
  refine ⟨trivial, ⟨_, rfl, rfl, rfl⟩, ?_, ?_⟩
  · rw [findTask_pullTaskFromUser, findTask_saveTask, if_pos rfl, hfind,
      Option.map_some']
    exact ⟨_, rfl, rfl, rfl⟩
  · rw [findUser_pullTaskFromUser, if_pos rfl, findUser_saveTask, hfa,
      Option.map_some']
    exact ⟨_, rfl, rfl, not_mem_pull _ _⟩

/-- Witness for the amended C2: unassigning `t1` from Ann keeps
`assignedUserName = "Ann"` and empties her `pendingTasks`. -/
theorem C2_putTask_unassign_witness :
    (∃ t2, (putTask
        { users := [{ id := "u1", name := "Ann", email := "a@x.com",
                      pendingTasks := ["t1"] }],
          tasks := [{ id := "t1", name := "Fix bug", description := "",
                      deadline := 0, completed := false,
                      assignedUser := "u1", assignedUserName := "Ann" }] }
        "t1" { assignedUser := some "" }).body = some t2 ∧
      t2.assignedUser = "" ∧ t2.assignedUserName = "Ann") ∧
    (∃ uA2, findUser (putTask
        { users := [{ id := "u1", name := "Ann", email := "a@x.com",
                      pendingTasks := ["t1"] }],
          tasks := [{ id := "t1", name := "Fix bug", description := "",
                      deadline := 0, completed := false,
                      assignedUser := "u1", assignedUserName := "Ann" }] }
        "t1" { assignedUser := some "" }).store "u1" = some uA2 ∧
      uA2.pendingTasks = pull ["t1"] "t1" ∧ "t1" ∉ uA2.pendingTasks) := by
  have h := C2_putTask_unassign
    { users := [{ id := "u1", name := "Ann", email := "a@x.com",
                  pendingTasks := ["t1"] }],
      tasks := [{ id := "t1", name := "Fix bug", description := "",
                  deadline := 0, completed := false,
                  assignedUser := "u1", assignedUserName := "Ann" }] }
    "t1" { assignedUser := some "" }
    { id := "t1", name := "Fix bug", description := "", deadline := 0,
      completed := false, assignedUser := "u1", assignedUserName := "Ann" }
    "u1"
    { id := "u1", name := "Ann", email := "a@x.com", pendingTasks := ["t1"] }
    (by decide) rfl (by decide) rfl rfl (by decide)
  exact ⟨h.2.1, h.2.2.2⟩

/-! ### Claim C3 -/

/-- Claim C3: PUT /api/tasks/:id moving a Task from existing User A to a
different existing User B removes the Task id from A's `pendingTasks` and
inserts it into B's. -/
theorem C3_putTask_reassignment_sync (s : Store) (i : String)
    (upd : TaskUpdates) (task : Task) (a b : String) (uA uB : User)
    (hfind : findTask s i = some task)
    (ha : task.assignedUser = a) (hane : a ≠ "")
    (hb : upd.assignedUser = some b) (hbne : b ≠ "") (hab : a ≠ b)
    (hfa : findUser s a = some uA) (hfb : findUser s b = some uB) :
    (putTask s i upd).status = 200 ∧
    (∃ uA2, findUser (putTask s i upd).store a = some uA2 ∧
            i ∉ uA2.pendingTasks) ∧
    (∃ uB2, findUser (putTask s i upd).store b = some uB2 ∧
            i ∈ uB2.pendingTasks) := by
  obtain ⟨hmemt, hidt⟩ := findTask_mem s i task hfind
  simp only [putTask, hfind, hb, Option.getD_some, applyTaskUpdates, ha, hidt]
  simp only [if_neg hab, if_neg hane, if_neg hbne, findUser_pullTaskFromUser,
    findUser_saveTask, hfb, if_neg (Ne.symm hab)]
  refine ⟨trivial, ?_, ?_⟩
  · rw [findUser_addTaskToUser, if_neg (Ne.symm hab), findUser_saveTask,
      findUser_pullTaskFromUser, if_pos rfl, findUser_saveTask, hfa,
      Option.map_some']
    exact ⟨_, rfl, not_mem_pull _ _⟩
  · rw [findUser_addTaskToUser, if_pos rfl, findUser_saveTask,
      findUser_pullTaskFromUser, if_neg hab, findUser_saveTask, hfb,
      Option.map_some']
    exact ⟨_, rfl, mem_addToSet _ _⟩

/-- Witness for C3: moving `t1` from Ann (`u1`) to Bob (`u2`). -/
theorem C3_putTask_reassignment_sync_witness :
    (∃ uA2, findUser (putTask
        { users := [{ id := "u1", name := "Ann", email := "a@x.com",
                      pendingTasks := ["t1"] },
                    { id := "u2", name := "Bob", email := "b@x.com",
                      pendingTasks := [] }],
          tasks := [{ id := "t1", name := "Fix bug", description := "",
                      deadline := 0, completed := false,
                      assignedUser := "u1", assignedUserName := "Ann" }] }
        "t1" { assignedUser := some "u2" }).store "u1" = some uA2 ∧
      "t1" ∉ uA2.pendingTasks) ∧
    (∃ uB2, findUser (putTask
        { users := [{ id := "u1", name := "Ann", email := "a@x.com",
                      pendingTasks := ["t1"] },
                    { id := "u2", name := "Bob", email := "b@x.com",
                      pendingTasks := [] }],
          tasks := [{ id := "t1", name := "Fix bug", description := "",
                      deadline := 0, completed := false,
                      assignedUser := "u1", assignedUserName := "Ann" }] }
        "t1" { assignedUser := some "u2" }).store "u2" = some uB2 ∧
      "t1" ∈ uB2.pendingTasks) := by
  have h := C3_putTask_reassignment_sync
    { users := [{ id := "u1", name := "Ann", email := "a@x.com",
                  pendingTasks := ["t1"] },
                { id := "u2", name := "Bob", email := "b@x.com",
                  pendingTasks := [] }],
      tasks := [{ id := "t1", name := "Fix bug", description := "",
                  deadline := 0, completed := false,
                  assignedUser := "u1", assignedUserName := "Ann" }] }
    "t1" { assignedUser := some "u2" }
    { id := "t1", name := "Fix bug", description := "", deadline := 0,
      completed := false, assignedUser := "u1", assignedUserName := "Ann" }
    "u1" "u2"
    { id := "u1", name := "Ann", email := "a@x.com", pendingTasks := ["t1"] }
    { id := "u2", name := "Bob", email := "b@x.com", pendingTasks := [] }
    (by decide) rfl (by decide) rfl (by decide) (by decide) (by decide)
    (by decide)
  exact ⟨h.2.1, h.2.2⟩

/-! ### Claim C10 -/

/-- Claim C10: PUT /api/tasks/:id moving a Task from existing User A to a
non-empty id B that resolves to no User still pulls the Task from A's
`pendingTasks`, and persists the Task with the dangling `assignedUser = B`
while `assignedUserName` keeps its previous value. -/
theorem C10_putTask_dangling_target (s : Store) (i : String)
    (upd : TaskUpdates) (task : Task) (a b : String) (uA : User)
    (hfind : findTask s i = some task)
    (ha : task.assignedUser = a) (hane : a ≠ "")
    (hb : upd.assignedUser = some b) (hbne : b ≠ "") (hab : a ≠ b)
    (hnoname : upd.assignedUserName = none)
    (hfa : findUser s a = some uA) (hfb : findUser s b = none) :
    (putTask s i upd).status = 200 ∧
    (∃ t2, (putTask s i upd).body = some t2 ∧ t2.assignedUser = b ∧
           t2.assignedUserName = task.assignedUserName) ∧
    (∃ t2, findTask (putTask s i upd).store i = some t2 ∧
           t2.assignedUser = b ∧
           t2.assignedUserName = task.assignedUserName) ∧
    (∃ uA2, findUser (putTask s i upd).store a = some uA2 ∧
            i ∉ uA2.pendingTasks) := by
  obtain ⟨hmemt, hidt⟩ := findTask_mem s i task hfind
  simp only [putTask, hfind, hb, hnoname, Option.getD_some, Option.getD_none,
    applyTaskUpdates, ha, hidt]
  simp only [if_neg hab, if_neg hane, if_neg hbne, findUser_pullTaskFromUser,
    findUser_saveTask, if_neg (Ne.symm hab), hfb]
  refine ⟨trivial, ⟨_, rfl, rfl, rfl⟩, ?_, ?_⟩
  · rw [findTask_pullTaskFromUser, findTask_saveTask, if_pos rfl, hfind,
      Option.map_some']
    exact ⟨_, rfl, rfl, rfl⟩
  · simp only [ite_true, hfa, Option.map_some']
    exact ⟨_, rfl, not_mem_pull _ _⟩

/-- Witness for C10: moving `t1` from Ann to the dangling id `zz`. -/
theorem C10_putTask_dangling_target_witness :
    (∃ t2, findTask (putTask
        { users := [{ id := "u1", name := "Ann", email := "a@x.com",
                      pendingTasks := ["t1"] }],
          tasks := [{ id := "t1", name := "Fix bug", description := "",
                      deadline := 0, completed := false,
                      assignedUser := "u1", assignedUserName := "Ann" }] }
        "t1" { assignedUser := some "zz" }).store "t1" = some t2 ∧
      t2.assignedUser = "zz" ∧ t2.assignedUserName = "Ann") ∧
    (∃ uA2, findUser (putTask
        { users := [{ id := "u1", name := "Ann", email := "a@x.com",
                      pendingTasks := ["t1"] }],
          tasks := [{ id := "t1", name := "Fix bug", description := "",
                      deadline := 0, completed := false,
                      assignedUser := "u1", assignedUserName := "Ann" }] }
        "t1" { assignedUser := some "zz" }).store "u1" = some uA2 ∧
      "t1" ∉ uA2.pendingTasks) := by
  have h := C10_putTask_dangling_target
    { users := [{ id := "u1", name := "Ann", email := "a@x.com",
                  pendingTasks := ["t1"] }],
      tasks := [{ id := "t1", name := "Fix bug", description := "",
                  deadline := 0, completed := false,
                  assignedUser := "u1", assignedUserName := "Ann" }] }
    "t1" { assignedUser := some "zz" }
    { id := "t1", name := "Fix bug", description := "", deadline := 0,
      completed := false, assignedUser := "u1", assignedUserName := "Ann" }
    "u1" "zz"
    { id := "u1", name := "Ann", email := "a@x.com", pendingTasks := ["t1"] }
    (by decide) rfl (by decide) rfl (by decide) (by decide) rfl (by decide)
    rfl
  exact ⟨h.2.2.1, h.2.2.2⟩

/-! ### Claim C8 -/

theorem foldl_fixed {α β : Type} (f : β → α → β) (b : β) :
    ∀ l : List α, (∀ x ∈ l, f b x = b) → l.foldl f b = b
  | [], _ => rfl
  | x :: xs, h => by
    rw [List.foldl_cons, h x (by simp)]
    exact foldl_fixed f b xs (fun y hy => h y (by simp [hy]))

theorem map_save_of_not_mem_ids (t : Task) :
    ∀ l : List Task, t.id ∉ l.map Task.id →
      l.map (fun x => if x.id == t.id then t else x) = l
  | [], _ => rfl
  | a :: l, h => by
    rw [List.map_cons]
    have ha : a.id ≠ t.id := by
      intro he
      exact h (by simp [← he])
    rw [if_neg (by simp [ha])]
    rw [map_save_of_not_mem_ids t l (fun hm => h (by simp [hm]))]

theorem saveTask_list (t : Task) :
    ∀ l : List Task, t ∈ l → (l.map Task.id).Nodup →
      l.map (fun x => if x.id == t.id then t else x) = l
  | [], hmem, _ => absurd hmem (by simp)
  | a :: l, hmem, hnd => by
    rw [List.map_cons] at hnd ⊢
    rw [List.nodup_cons] at hnd
    rcases List.mem_cons.mp hmem with he | hm
    · subst he
      rw [if_pos (by simp)]
      rw [map_save_of_not_mem_ids t l hnd.1]
    · have ha : a.id ≠ t.id := by
        intro he
        exact hnd.1 (he ▸ List.mem_map_of_mem Task.id hm)
      rw [if_neg (by simp [ha])]
      rw [saveTask_list t l hm hnd.2]

/-- Saving back a document that is already stored unchanged (and whose id is
unique in the collection) leaves the store as it was. -/
theorem saveTask_self (s : Store) (t : Task) (hmem : t ∈ s.tasks)
    (hnd : (s.tasks.map Task.id).Nodup) : saveTask s t = s := by
  rw [saveTask, saveTask_list t s.tasks hmem hnd]

/-- Claim C8 as stated is false: PUT /api/users/:id with `pendingTasks`
equal to the existing list re-asserts assignment on every listed Task, so a
Task that did not already point at the User (reachable, e.g. the User was
created with a caller-supplied `pendingTasks`) is mutated: here `t1` goes
from `assignedUser = ""` to `assignedUser = "u1"`. -/
theorem C8_counterexample :
    ((findTask (putUser
        { users := [{ id := "u1", name := "Ann", email := "a@x.com",
                      pendingTasks := ["t1"] }],
          tasks := [{ id := "t1", name := "T", description := "",
                      deadline := 0, completed := false,
                      assignedUser := "", assignedUserName := "unassigned" }] }
        "u1" { pendingTasks := some ["t1"] }).store "t1").map
      Task.assignedUser) = some "u1" ∧
    ((findTask
        { users := [{ id := "u1", name := "Ann", email := "a@x.com",
                      pendingTasks := ["t1"] }],
          tasks := [{ id := "t1", name := "T", description := "",
                      deadline := 0, completed := false,
                      assignedUser := "", assignedUserName := "unassigned" }] }
        "t1").map Task.assignedUser) = some "" ∧
    ("u1" : String) ≠ "" := by
  exact ⟨rfl, rfl, by decide⟩

/-- Claim C8 (amended): PUT /api/users/:id whose `pendingTasks` equals the
User's existing list leaves the Task collection unchanged, provided task ids
are unique and every stored Task named in the list already carries this
User's id and name (the §3 invariant); the re-assertion writes are then
exact no-ops. Without that proviso the second sync loop rewrites
invariant-violating Tasks (see the counterexample). -/
theorem C8_putUser_idempotent_sync (s : Store) (i : String)
    (upd : UserUpdates) (user : User)
    (hfind : findUser s i = some user)
    (hupd : upd.pendingTasks = some user.pendingTasks)
    (hnd : (s.tasks.map Task.id).Nodup)
    (hinv : ∀ t ∈ s.tasks, t.id ∈ user.pendingTasks →
      t.assignedUser = user.id ∧ t.assignedUserName = user.name) :
    (putUser s i upd).status = 200 ∧
    (putUser s i upd).store.tasks = s.tasks := by
  have hclear : ∀ tid ∈ user.pendingTasks,
      clearDroppedTask user.pendingTasks s tid = s := by
    intro tid htid
    rw [clearDroppedTask, if_pos htid]
  have hclaim : ∀ tid ∈ user.pendingTasks, claimTask user s tid = s := by
    intro tid htid
    rw [claimTask]
    cases hft : findTask s tid with
    | none => rfl
    | some t =>
      obtain ⟨hmem, hid⟩ := findTask_mem s tid t hft
      obtain ⟨hau, haun⟩ := hinv t hmem (by rw [hid]; exact htid)
      have ht2 : ({ t with
          assignedUser := user.id
          assignedUserName := user.name } : Task) = t := by
        cases t
        simp_all
      show saveTask s { t with
        assignedUser := user.id
        assignedUserName := user.name } = s
      rw [ht2]
      exact saveTask_self s t hmem hnd
  simp only [putUser, hfind, hupd]
  rw [foldl_fixed _ _ user.pendingTasks hclear,
    foldl_fixed _ _ user.pendingTasks hclaim]
  exact ⟨trivial, rfl⟩

/-- Witness for the amended C8: re-submitting Ann's consistent
`pendingTasks = ["t1"]` leaves the Task collection exactly as it was. -/
theorem C8_putUser_idempotent_sync_witness :
    (putUser
        { users := [{ id := "u1", name := "Ann", email := "a@x.com",
                      pendingTasks := ["t1"] }],
          tasks := [{ id := "t1", name := "T", description := "",
                      deadline := 0, completed := false,
                      assignedUser := "u1", assignedUserName := "Ann" }] }
        "u1" { pendingTasks := some ["t1"] }).store.tasks =
      [{ id := "t1", name := "T", description := "", deadline := 0,
         completed := false, assignedUser := "u1",
         assignedUserName := "Ann" }] := by
  have h := C8_putUser_idempotent_sync
    { users := [{ id := "u1", name := "Ann", email := "a@x.com",
                  pendingTasks := ["t1"] }],
      tasks := [{ id := "t1", name := "T", description := "",
                  deadline := 0, completed := false,
                  assignedUser := "u1", assignedUserName := "Ann" }] }
    "u1" { pendingTasks := some ["t1"] }
    { id := "u1", name := "Ann", email := "a@x.com", pendingTasks := ["t1"] }
    (by decide) rfl (by decide) (by decide)
  exact h.2

end Mp3
